import Mathlib

/-!
Verification of the Shipyard Hull Fabrication and Assembly Project
Management System service layer (src/service.py, src/model.py).

The Python service layer is embedded shallowly: dataclasses become
structures, string-backed enumerations become inductive types, UUID
values become natural numbers, calendar dates become a civil-date
structure with a day count, UTC datetimes become natural-number
timestamps passed in explicitly (the Python code reads the wall clock
via datetime.now), and fresh uuid4 identifiers are passed in as
explicit parameters.  Methods that mutate their arguments in place are
embedded as pure functions returning the updated values; methods that
raise ValueError return Except String.
-/

/-- Stakeholder identifiers, stage identifiers and so on are uuid4
values in the source; they are modelled as natural numbers. -/
abbrev UUID := Nat

/-- Civil calendar date, mirroring datetime.date. -/
structure CalDate where
  year : Nat
  month : Nat
  day : Nat
deriving DecidableEq, Repr

/-- Day count of a civil date (days since 0000-03-01, valid for the
Gregorian dates the system handles).  This mirrors the day arithmetic
of datetime.date: differences of toDays agree with Python date
subtraction in days. -/
def CalDate.toDays (d : CalDate) : Nat :=
  let y := if d.month ≤ 2 then d.year - 1 else d.year
  let era := y / 400
  let yoe := y % 400
  let mp := if d.month ≤ 2 then d.month + 9 else d.month - 3
  let doy := (153 * mp + 2) / 5 + (d.day - 1)
  let doe := yoe * 365 + yoe / 4 - yoe / 100 + doy
  era * 146097 + doe

/-- Signed day difference of two dates, mirroring (a - b).days on
Python date objects. -/
def date_sub (a b : CalDate) : Int :=
  (a.toDays : Int) - (b.toDays : Int)

/-- Chronological minimum of two dates; on a tie the first argument is
kept, matching the behaviour of the Python builtin min. -/
def dmin (a b : CalDate) : CalDate :=
  if b.toDays < a.toDays then b else a

/-- Chronological maximum of two dates; on a tie the first argument is
kept, matching the behaviour of the Python builtin max. -/
def dmax (a b : CalDate) : CalDate :=
  if a.toDays < b.toDays then b else a

/-- Minimum of a list of dates, none when the list is empty, mirroring
min over a nonempty Python list guarded by a conditional expression. -/
def list_min_date : List CalDate → Option CalDate
  | [] => none
  | x :: xs => some (xs.foldl dmin x)

/-- Maximum of a list of dates, none when the list is empty. -/
def list_max_date : List CalDate → Option CalDate
  | [] => none
  | x :: xs => some (xs.foldl dmax x)

/-- Lifecycle status of an individual project stage (model.StageStatus). -/
inductive StageStatus where
  | not_started
  | in_progress
  | blocked
  | completed
deriving DecidableEq, Repr

/-- Approval workflow status of a baseline change request
(model.ChangeRequestStatus). -/
inductive ChangeRequestStatus where
  | pending
  | approved
  | rejected
deriving DecidableEq, Repr

/-- Classification of a baseline change request (model.ChangeType). -/
inductive ChangeType where
  | initial_baseline
  | delay
  | scope_change
  | cost_change
  | other
deriving DecidableEq, Repr

/-- Standard roles within the project management system
(model.StakeholderRole). -/
inductive StakeholderRole where
  | lead_project_manager
  | baseline_approver
  | owner_representative
  | procurement_lead
  | qa_classification_officer
  | team_member
deriving DecidableEq, Repr

/-- Deviation of a stage against its baseline end date
(model.DeviationStatus). -/
inductive DeviationStatus where
  | on_baseline
  | ahead
  | delayed
deriving DecidableEq, Repr

/-- Top-level container for a project (model.Project). -/
structure Project where
  id : UUID
  name : String
  description : String
  shipyard_name : String
  vessel_type : String
  planned_start_date : Option CalDate
  planned_end_date : Option CalDate
  actual_start_date : Option CalDate
  actual_end_date : Option CalDate
  overall_progress_pct : Rat
  total_planned_duration_days : Int
  total_actual_duration_days : Int
  total_baseline_duration_days : Int
  active_baseline_id : Option UUID
  created_at : Nat
  updated_at : Nat
  created_by_id : Option UUID
deriving DecidableEq, Repr

/-- A named grouping of related stages within a project (model.Phase). -/
structure Phase where
  id : UUID
  project_id : UUID
  name : String
  description : String
  order : Int
  overall_progress_pct : Rat
  planned_start_date : Option CalDate
  planned_end_date : Option CalDate
  actual_start_date : Option CalDate
  actual_end_date : Option CalDate
  created_at : Nat
  updated_at : Nat
deriving DecidableEq, Repr

/-- An individual unit of work within a phase (model.Stage). -/
structure Stage where
  id : UUID
  phase_id : UUID
  project_id : UUID
  name : String
  description : String
  order : Int
  planned_start_date : Option CalDate
  planned_end_date : Option CalDate
  planned_duration_days : Option Int
  actual_start_date : Option CalDate
  actual_end_date : Option CalDate
  actual_duration_days : Option Int
  baseline_start_date : Option CalDate
  baseline_end_date : Option CalDate
  baseline_duration_days : Option Int
  status : StageStatus
  progress_pct : Rat
  comments : String
  deviation_days : Option Int
  deviation_status : Option DeviationStatus
  created_at : Nat
  updated_at : Nat
  updated_by_id : Option UUID
deriving DecidableEq, Repr

/-- A predecessor to successor dependency between two stages
(model.StageDependency). -/
structure StageDependency where
  id : UUID
  project_id : UUID
  predecessor_stage_id : UUID
  successor_stage_id : UUID
  dependency_type : String
  created_at : Nat
deriving DecidableEq, Repr

/-- Immutable log record of a status or progress update applied to a
stage (model.StageStatusUpdate). -/
structure StageStatusUpdate where
  stage_id : UUID
  project_id : UUID
  updated_by_id : UUID
  previous_status : Option StageStatus
  new_status : StageStatus
  previous_progress_pct : Option Rat
  new_progress_pct : Rat
  actual_start_date : Option CalDate
  actual_end_date : Option CalDate
  comments : String
  updated_at : Nat
deriving DecidableEq, Repr

/-- Associates a stakeholder with a project and a role
(model.ProjectStakeholder). -/
structure ProjectStakeholder where
  id : UUID
  project_id : UUID
  stakeholder_id : UUID
  role : StakeholderRole
  assigned_at : Nat
deriving DecidableEq, Repr

/-- A versioned, approved snapshot of a project schedule
(model.Baseline). -/
structure Baseline where
  id : UUID
  project_id : UUID
  version_number : Nat
  set_by_id : UUID
  set_at : Nat
  is_active : Bool
  notes : String
  change_request_id : Option UUID
deriving DecidableEq, Repr

/-- Planned dates of a single stage at the time a baseline was set
(model.BaselineStageSnapshot).  The generated uuid4 primary key of a
snapshot is not used by any service logic and is not modelled. -/
structure BaselineStageSnapshot where
  baseline_id : UUID
  stage_id : UUID
  project_id : UUID
  baseline_start_date : Option CalDate
  baseline_end_date : Option CalDate
  baseline_duration_days : Option Int
  snapshotted_at : Nat
deriving DecidableEq, Repr

/-- A formal request to modify the approved project baseline
(model.ChangeRequest). -/
structure ChangeRequest where
  id : UUID
  project_id : UUID
  requested_by_id : UUID
  approver_id : Option UUID
  change_type : ChangeType
  reason : String
  schedule_impact_days : Int
  cost_impact : Option Rat
  status : ChangeRequestStatus
  reviewed_at : Option Nat
  reviewer_comments : String
  stakeholder_comments : String
  submitted_at : Nat
  updated_at : Nat
deriving DecidableEq, Repr

/-- Guard helper _require_role: the stakeholder must hold one of the
allowed roles among the project role assignments.  The source builds
the set of roles held by the stakeholder and rejects when its
intersection with the allowed roles is empty; that intersection is
nonempty exactly when some assignment matches the stakeholder and an
allowed role.  The source message interpolates the stakeholder id and
role list; the interpolation is elided here. -/
def require_role (project_stakeholders : List ProjectStakeholder)
    (stakeholder_id : UUID) (allowed_roles : List StakeholderRole) :
    Except String Unit :=
  if project_stakeholders.any (fun ps =>
      ps.stakeholder_id == stakeholder_id && allowed_roles.contains ps.role) then
    Except.ok ()
  else
    Except.error "Stakeholder does not hold any of the required roles."

/-- ProjectService.recalculate_progress: recompute overall progress and
duration summary fields from all stage records.  The updated_at stamp
from datetime.now is passed in as now. -/
def recalculate_progress (project : Project) (stages : List Stage) (now : Nat) :
    Project :=
  if stages.isEmpty then
    { project with
        overall_progress_pct := 0
        total_planned_duration_days := 0
        total_actual_duration_days := 0
        total_baseline_duration_days := 0
        updated_at := now }
  else
    { project with
        overall_progress_pct :=
          (stages.map (fun s => s.progress_pct)).sum / (stages.length : Rat)
        total_planned_duration_days :=
          (stages.map (fun s => s.planned_duration_days.getD 0)).sum
        total_actual_duration_days :=
          (stages.map (fun s => s.actual_duration_days.getD 0)).sum
        total_baseline_duration_days :=
          (stages.map (fun s => s.baseline_duration_days.getD 0)).sum
        updated_at := now }

/-- PhaseService.recalculate_phase_progress: recompute phase summary
dates and progress from the child stages (the stages whose phase_id
matches the phase).  The list comprehensions filtering out absent
dates are embedded as filterMap. -/
def recalculate_phase_progress (phase : Phase) (stages : List Stage) (now : Nat) :
    Phase :=
  let phase_stages := stages.filter (fun s => s.phase_id == phase.id)
  if phase_stages.isEmpty then
    { phase with overall_progress_pct := 0, updated_at := now }
  else
    let planned_starts := phase_stages.filterMap (fun s => s.planned_start_date)
    let planned_ends := phase_stages.filterMap (fun s => s.planned_end_date)
    let actual_starts := phase_stages.filterMap (fun s => s.actual_start_date)
    let actual_ends := phase_stages.filterMap (fun s => s.actual_end_date)
    { phase with
        overall_progress_pct :=
          (phase_stages.map (fun s => s.progress_pct)).sum /
            (phase_stages.length : Rat)
        planned_start_date := list_min_date planned_starts
        planned_end_date := list_max_date planned_ends
        actual_start_date := list_min_date actual_starts
        actual_end_date := list_max_date actual_ends
        updated_at := now }

/-- StageService.apply_progress_update: validate and apply a progress
and status update to a stage, producing the immutable history record.
Raising ValueError is embedded as Except.error; the updated stage and
the StageStatusUpdate record are returned on success. -/
def apply_progress_update (stage : Stage) (new_status : StageStatus)
    (new_progress_pct : Rat) (actual_start_date actual_end_date : Option CalDate)
    (comments : String) (acting_user_id : UUID) (now : Nat) :
    Except String (Stage × StageStatusUpdate) :=
  if ¬ (0 ≤ new_progress_pct ∧ new_progress_pct ≤ 100) then
    Except.error "progress_pct must be between 0 and 100."
  else if actual_end_date.isSome ∧ actual_start_date = none then
    Except.error "actual_end_date cannot be set without actual_start_date."
  else if new_status = StageStatus.completed ∧
      (actual_start_date = none ∨ actual_end_date = none) then
    Except.error "A stage cannot be marked COMPLETED without both actual_start_date and actual_end_date."
  else
    let update : StageStatusUpdate :=
      { stage_id := stage.id
        project_id := stage.project_id
        updated_by_id := acting_user_id
        previous_status := some stage.status
        new_status := new_status
        previous_progress_pct := some stage.progress_pct
        new_progress_pct := new_progress_pct
        actual_start_date := actual_start_date
        actual_end_date := actual_end_date
        comments := comments
        updated_at := now }
    let stage2 : Stage :=
      { stage with
          status := new_status
          progress_pct := new_progress_pct
          actual_start_date := actual_start_date
          actual_end_date := actual_end_date
          actual_duration_days :=
            match actual_start_date, actual_end_date with
            | some s, some e => some (date_sub e s)
            | _, _ => stage.actual_duration_days
          comments := comments
          updated_at := now
          updated_by_id := some acting_user_id }
    Except.ok (stage2, update)

/-- StageService.compute_deviation: calculate and set deviation_days
and deviation_status from planned_end_date versus baseline_end_date.
The early return clearing both fields fires when either date is
absent. -/
def compute_deviation (stage : Stage) : Stage :=
  match stage.planned_end_date, stage.baseline_end_date with
  | some pe, some be =>
    let delta : Int := date_sub pe be
    { stage with
        deviation_days := some delta
        deviation_status := some
          (if delta > 0 then DeviationStatus.delayed
           else if delta < 0 then DeviationStatus.ahead
           else DeviationStatus.on_baseline) }
  | _, _ =>
    { stage with deviation_days := none, deviation_status := none }

/-- Successor adjacency of a node: the successors of every dependency
whose predecessor is the node, in list order.  This equals the entry
built by the setdefault and append loop of _would_create_cycle (a
missing dictionary entry corresponds to the empty list). -/
def adjacency_of (deps : List StageDependency) (node : UUID) : List UUID :=
  (deps.filter (fun d => d.predecessor_stage_id == node)).map
    (fun d => d.successor_stage_id)

/-- All node identifiers occurring in a dependency list; a finite
superset of every node the traversal can ever push. -/
def nodes_of (deps : List StageDependency) : List UUID :=
  deps.map (fun d => d.predecessor_stage_id) ++
    deps.map (fun d => d.successor_stage_id)

/-- Count of graph nodes not yet visited; the primary component of the
termination measure of the traversal. -/
def unvisited_count (deps : List StageDependency) (visited : List UUID) : Nat :=
  ((nodes_of deps).filter (fun x => !(visited.contains x))).length

theorem filter_not_contains_cons_le (l visited : List UUID) (node : UUID) :
    (l.filter (fun x => !((node :: visited).contains x))).length ≤
      (l.filter (fun x => !(visited.contains x))).length := by
  apply List.Sublist.length_le
  apply List.monotone_filter_right
  intro a ha
  simp only [List.contains_cons, Bool.not_eq_true', Bool.or_eq_false_iff] at ha ⊢
  exact ha.2

theorem filter_not_contains_cons_lt (l visited : List UUID) (node : UUID)
    (hmem : node ∈ l) (hnv : visited.contains node = false) :
    (l.filter (fun x => !((node :: visited).contains x))).length <
      (l.filter (fun x => !(visited.contains x))).length := by
  induction l with
  | nil => cases hmem
  | cons a t ih =>
    by_cases han : a = node
    · subst han
      have h1 : ((a :: visited).contains a) = true := by
        simp [List.contains_cons]
      have h2 : (visited.contains a) = false := hnv
      simp only [List.filter_cons, h1, h2, Bool.not_true, Bool.not_false,
        List.length_cons, if_neg, if_pos]
      calc (t.filter (fun x => !((a :: visited).contains x))).length
          ≤ (t.filter (fun x => !(visited.contains x))).length :=
            filter_not_contains_cons_le t visited a
        _ < (t.filter (fun x => !(visited.contains x))).length + 1 :=
            Nat.lt_succ_self _
    · have hmt : node ∈ t := by
        cases hmem with
        | head => exact absurd rfl han
        | tail _ h => exact h
      have hcons : ((node :: visited).contains a) = (visited.contains a) := by
        simp only [List.contains_cons]
        have : (a == node) = false := by
          simp [han]
        simp [this]
      by_cases hva : (visited.contains a) = true
      · simp only [List.filter_cons, hcons, hva, Bool.not_true]
        simpa using ih hmt
      · have hva' : (visited.contains a) = false := by
          simpa using hva
        simp only [List.filter_cons, hcons, hva', Bool.not_false,
          List.length_cons]
        exact Nat.succ_lt_succ (ih hmt)

theorem unvisited_count_cons_le (deps : List StageDependency)
    (visited : List UUID) (node : UUID) :
    unvisited_count deps (node :: visited) ≤ unvisited_count deps visited :=
  filter_not_contains_cons_le (nodes_of deps) visited node

theorem unvisited_count_cons_lt (deps : List StageDependency)
    (visited : List UUID) (node : UUID) (hmem : node ∈ nodes_of deps)
    (hnv : visited.contains node = false) :
    unvisited_count deps (node :: visited) < unvisited_count deps visited :=
  filter_not_contains_cons_lt (nodes_of deps) visited node hmem hnv

theorem unvisited_count_cons_eq (deps : List StageDependency)
    (visited : List UUID) (node : UUID) (hmem : node ∉ nodes_of deps) :
    unvisited_count deps (node :: visited) = unvisited_count deps visited := by
  unfold unvisited_count
  congr 1
  apply List.filter_congr
  intro a ha
  have : (a == node) = false := by
    simp only [beq_eq_false_iff_ne, ne_eq]
    intro h
    exact hmem (h ▸ ha)
  simp only [List.contains_cons, this, Bool.false_or]

theorem mem_nodes_of_of_adjacency (deps : List StageDependency) (node : UUID)
    (h : adjacency_of deps node ≠ []) : node ∈ nodes_of deps := by
  unfold adjacency_of at h
  unfold nodes_of
  rcases hf : deps.filter (fun d => d.predecessor_stage_id == node) with _ | ⟨d, t⟩
  · rw [hf] at h
    simp at h
  · have hd : d ∈ deps.filter (fun d => d.predecessor_stage_id == node) := by
      rw [hf]
      exact List.mem_cons_self d t
    rw [List.mem_filter] at hd
    have : d.predecessor_stage_id = node := by
      simpa using hd.2
    apply List.mem_append_left
    rw [List.mem_map]
    exact ⟨d, hd.1, this⟩

/-- Depth-first traversal of _would_create_cycle: pop a node from the
stack, succeed when it is the target, skip it when already visited,
otherwise mark it visited and push its successors.  The Python stack
pops from the end of the list and extend appends the adjacency list,
so the next node popped is the last successor; the stack is modelled
with its top at the head, hence the reversed adjacency is prepended. -/
def dfs_find (deps : List StageDependency) (target : UUID) :
    List UUID → List UUID → Bool
  | _, [] => false
  | visited, node :: rest =>
    if node = target then true
    else if visited.contains node then
      dfs_find deps target visited rest
    else
      dfs_find deps target (node :: visited)
        ((adjacency_of deps node).reverse ++ rest)
termination_by visited stack => (unvisited_count deps visited, stack.length)
decreasing_by
  · apply Prod.Lex.right
    exact Nat.lt_succ_self _
  · rename_i _htgt hvis
    by_cases hn : node ∈ nodes_of deps
    · apply Prod.Lex.left
      apply unvisited_count_cons_lt deps visited node hn
      simpa using hvis
    · have hadj : adjacency_of deps node = [] := by
        by_contra hne
        exact hn (mem_nodes_of_of_adjacency deps node hne)
      rw [unvisited_count_cons_eq deps visited node hn, hadj]
      apply Prod.Lex.right
      exact Nat.lt_succ_self _

/-- DependencyService._would_create_cycle: depth-first search from the
new successor; reaching the new predecessor means the new edge would
close a cycle. -/
def would_create_cycle (new_predecessor_id new_successor_id : UUID)
    (existing_dependencies : List StageDependency) : Bool :=
  dfs_find existing_dependencies new_predecessor_id [] [new_successor_id]

/-- DependencyService.add_dependency: create a new finish-to-start
dependency after the role, self-loop, duplicate and cycle checks.  The
generated uuid4 and creation timestamp are passed in explicitly. -/
def add_dependency (project_id : UUID)
    (predecessor_stage_id successor_stage_id : UUID)
    (existing_dependencies : List StageDependency)
    (project_stakeholders : List ProjectStakeholder)
    (acting_user_id : UUID) (new_id now : Nat) :
    Except String StageDependency :=
  match require_role project_stakeholders acting_user_id
      [StakeholderRole.lead_project_manager] with
  | Except.error e => Except.error e
  | Except.ok _ =>
    if predecessor_stage_id = successor_stage_id then
      Except.error "A stage cannot depend on itself."
    else if existing_dependencies.any (fun dep =>
        dep.predecessor_stage_id == predecessor_stage_id &&
          dep.successor_stage_id == successor_stage_id) then
      Except.error "This dependency already exists."
    else if would_create_cycle predecessor_stage_id successor_stage_id
        existing_dependencies then
      Except.error "Adding this dependency would create a circular dependency chain."
    else
      Except.ok
        { id := new_id
          project_id := project_id
          predecessor_stage_id := predecessor_stage_id
          successor_stage_id := successor_stage_id
          dependency_type := "finish_to_start"
          created_at := now }

/-- Edge set the caller persists after a call to add_dependency: the
returned edge is appended on success, and the existing list is kept
unchanged on failure (the service never mutates the list it reads). -/
def edges_after (existing_dependencies : List StageDependency)
    (result : Except String StageDependency) : List StageDependency :=
  match result with
  | Except.ok e => existing_dependencies ++ [e]
  | Except.error _ => existing_dependencies

/-- BaselineService._snapshot_stages: create one snapshot per stage and
write the planned dates back onto the baseline fields of every stage. -/
def snapshot_stages (baseline : Baseline) (stages : List Stage) (now : Nat) :
    List BaselineStageSnapshot × List Stage :=
  (stages.map (fun stage =>
      { baseline_id := baseline.id
        stage_id := stage.id
        project_id := stage.project_id
        baseline_start_date := stage.planned_start_date
        baseline_end_date := stage.planned_end_date
        baseline_duration_days := stage.planned_duration_days
        snapshotted_at := now }),
   stages.map (fun stage =>
      { stage with
          baseline_start_date := stage.planned_start_date
          baseline_end_date := stage.planned_end_date
          baseline_duration_days := stage.planned_duration_days
          updated_at := now }))

/-- BaselineService.set_initial_baseline: set the version 1 baseline
after the approval, type and no-existing-baseline checks; snapshot all
stages and point the project at the new baseline.  The updated project
is returned alongside the values the source returns. -/
def set_initial_baseline (project : Project) (stages : List Stage)
    (change_request : ChangeRequest) (set_by_id : UUID) (notes : String)
    (new_id now : Nat) :
    Except String (Baseline × List BaselineStageSnapshot × List Stage × Project) :=
  if change_request.status ≠ ChangeRequestStatus.approved then
    Except.error "Cannot set baseline: change request is not approved."
  else if change_request.change_type ≠ ChangeType.initial_baseline then
    Except.error "Initial baseline requires a change request of type INITIAL_BASELINE."
  else if project.active_baseline_id ≠ none then
    Except.error "Project already has a baseline. Use reset_baseline for subsequent baselines."
  else
    let baseline : Baseline :=
      { id := new_id
        project_id := project.id
        version_number := 1
        set_by_id := set_by_id
        set_at := now
        is_active := true
        notes := notes
        change_request_id := some change_request.id }
    let sn := snapshot_stages baseline stages now
    Except.ok (baseline, sn.1, sn.2, { project with active_baseline_id := some new_id })

/-- Scope-change guard of reset_baseline: a SCOPE_CHANGE request needs
the stakeholder list and a designated approver, and that approver must
hold the Owner-Representative role. -/
def scope_change_check (change_request : ChangeRequest)
    (project_stakeholders : Option (List ProjectStakeholder)) :
    Except String Unit :=
  if change_request.change_type = ChangeType.scope_change then
    match project_stakeholders, change_request.approver_id with
    | some pss, some approver =>
      require_role pss approver [StakeholderRole.owner_representative]
    | _, _ =>
      Except.error "SCOPE_CHANGE baseline reset requires project_stakeholders and a designated approver."
  else Except.ok ()

/-- BaselineService.reset_baseline: create a new approved baseline with
the next version number, deactivating every currently active previous
baseline, after the approval, active-baseline and scope-change checks. -/
def reset_baseline (project : Project) (stages : List Stage)
    (previous_baselines : List Baseline) (change_request : ChangeRequest)
    (set_by_id : UUID) (notes : String)
    (project_stakeholders : Option (List ProjectStakeholder))
    (new_id now : Nat) :
    Except String (Baseline × List BaselineStageSnapshot × List Stage ×
      List Baseline × Project) :=
  if change_request.status ≠ ChangeRequestStatus.approved then
    Except.error "Cannot reset baseline: change request is not approved."
  else if project.active_baseline_id = none then
    Except.error "No active baseline found. Use set_initial_baseline first."
  else
    match scope_change_check change_request project_stakeholders with
    | Except.error e => Except.error e
    | Except.ok _ =>
      let next_version :=
        (previous_baselines.foldl (fun m b => max m b.version_number) 0) + 1
      let updated_previous := previous_baselines.map (fun b =>
        if b.is_active then { b with is_active := false } else b)
      let new_baseline : Baseline :=
        { id := new_id
          project_id := project.id
          version_number := next_version
          set_by_id := set_by_id
          set_at := now
          is_active := true
          notes := notes
          change_request_id := some change_request.id }
      let sn := snapshot_stages new_baseline stages now
      Except.ok (new_baseline, sn.1, sn.2, updated_previous,
        { project with active_baseline_id := some new_id })

/-- Blank check of the source, which tests the falsiness of
str.strip(): stripping yields the empty string exactly when every
character of the string is whitespace, so the check is embedded as
this all-whitespace test over the character data. -/
def is_blank (s : String) : Bool :=
  s.data.all (fun c => c.isWhitespace)

/-- ChangeControlService.approve_change_request: approve a pending
change request after the pending, designated-approver, nonblank
comments and scope-change role checks. -/
def approve_change_request (change_request : ChangeRequest)
    (reviewer_id : UUID) (reviewer_comments : String)
    (project_stakeholders : List ProjectStakeholder) (now : Nat) :
    Except String ChangeRequest :=
  if change_request.status ≠ ChangeRequestStatus.pending then
    Except.error "Only PENDING change requests can be approved."
  else if change_request.approver_id ≠ some reviewer_id then
    Except.error "Only the designated approver may approve this change request."
  else if is_blank reviewer_comments then
    Except.error "Reviewer comments are mandatory for approval."
  else
    match (if change_request.change_type = ChangeType.scope_change then
        require_role project_stakeholders reviewer_id
          [StakeholderRole.owner_representative]
      else Except.ok ()) with
    | Except.error e => Except.error e
    | Except.ok _ =>
      Except.ok { change_request with
        status := ChangeRequestStatus.approved
        reviewed_at := some now
        reviewer_comments := reviewer_comments
        updated_at := now }

/-- ChangeControlService.reject_change_request: reject a pending change
request after the pending, designated-approver and nonblank comments
checks. -/
def reject_change_request (change_request : ChangeRequest)
    (reviewer_id : UUID) (reviewer_comments : String)
    (_project_stakeholders : List ProjectStakeholder) (now : Nat) :
    Except String ChangeRequest :=
  if change_request.status ≠ ChangeRequestStatus.pending then
    Except.error "Only PENDING change requests can be rejected."
  else if change_request.approver_id ≠ some reviewer_id then
    Except.error "Only the designated approver may reject this change request."
  else if is_blank reviewer_comments then
    Except.error "Reviewer comments are mandatory for rejection."
  else
    Except.ok { change_request with
      status := ChangeRequestStatus.rejected
      reviewed_at := some now
      reviewer_comments := reviewer_comments
      updated_at := now }

/-- Change request state the store holds after an approve call: the
updated record on success and the original, untouched record on
failure (in the source every ValueError is raised before any field is
assigned). -/
def change_request_after (change_request : ChangeRequest)
    (result : Except String ChangeRequest) : ChangeRequest :=
  match result with
  | Except.ok cr => cr
  | Except.error _ => change_request

/-- One reset_baseline call per list element, feeding the accumulated
baseline list, the updated stages and the updated project back into
the next call; each element carries the change request, the optional
stakeholder list and the fresh uuid4 and timestamp of that call. -/
def iterate_resets (set_by_id : UUID) (notes : String) :
    Project → List Stage → List Baseline →
    List (ChangeRequest × Option (List ProjectStakeholder) × Nat × Nat) →
    Except String (Project × List Stage × List Baseline)
  | project, stages, baselines, [] => Except.ok (project, stages, baselines)
  | project, stages, baselines, (cr, pss, new_id, now) :: rest =>
    match reset_baseline project stages baselines cr set_by_id notes pss
        new_id now with
    | Except.error e => Except.error e
    | Except.ok (nb, _snaps, updated_stages, updated_previous, project2) =>
      iterate_resets set_by_id notes project2 updated_stages
        (updated_previous ++ [nb]) rest

/-- Full baseline lifecycle of the claim: one set_initial_baseline call
followed by one reset_baseline call per element of resets, each reset
consuming the baseline list accumulated so far. -/
def run_baseline_lifecycle (project : Project) (stages : List Stage)
    (cr0 : ChangeRequest) (set_by_id : UUID) (notes : String) (id0 t0 : Nat)
    (resets : List (ChangeRequest × Option (List ProjectStakeholder) × Nat × Nat)) :
    Except String (Project × List Stage × List Baseline) :=
  match set_initial_baseline project stages cr0 set_by_id notes id0 t0 with
  | Except.error e => Except.error e
  | Except.ok (b1, _snaps, stages1, project1) =>
    iterate_resets set_by_id notes project1 stages1 [b1] resets

/-- Reachability along dependency edges: Reach deps a b holds when a
directed path (possibly empty) leads from a to b following
predecessor-to-successor edges of deps. -/
inductive Reach (deps : List StageDependency) : UUID → UUID → Prop
  | refl (a : UUID) : Reach deps a a
  | head {a b c : UUID} : b ∈ adjacency_of deps a → Reach deps b c →
      Reach deps a c

theorem Reach.trans {deps : List StageDependency} {a b c : UUID}
    (h1 : Reach deps a b) (h2 : Reach deps b c) : Reach deps a c := by
  induction h1 with
  | refl => exact h2
  | head hedge _ ih => exact Reach.head hedge (ih h2)

theorem Reach.single {deps : List StageDependency} {a b : UUID}
    (h : b ∈ adjacency_of deps a) : Reach deps a b :=
  Reach.head h (Reach.refl b)

theorem Reach.snoc {deps : List StageDependency} {a b c : UUID}
    (h1 : Reach deps a b) (h2 : c ∈ adjacency_of deps b) : Reach deps a c :=
  h1.trans (Reach.single h2)

theorem Reach.mem_closed {deps : List StageDependency} {S : List UUID}
    (hcl : ∀ v ∈ S, ∀ w ∈ adjacency_of deps v, w ∈ S) :
    ∀ {x y : UUID}, Reach deps x y → x ∈ S → y ∈ S := by
  intro x y h
  induction h with
  | refl => exact id
  | head hedge _ ih => intro hx; exact ih (hcl _ hx _ hedge)

theorem dfs_find_sound (deps : List StageDependency) (target start : UUID) :
    ∀ visited stack : List UUID, (∀ n ∈ stack, Reach deps start n) →
      dfs_find deps target visited stack = true → Reach deps start target := by
  intro visited stack
  induction visited, stack using dfs_find.induct deps target with
  | case1 v =>
    intro _ hrun
    rw [dfs_find] at hrun
    cases hrun
  | case2 v rest =>
    intro hstk _
    exact hstk target (List.mem_cons_self _ _)
  | case3 v node rest hne hvis ih =>
    intro hstk hrun
    rw [dfs_find, if_neg hne, if_pos hvis] at hrun
    exact ih (fun n hn => hstk n (List.mem_cons_of_mem _ hn)) hrun
  | case4 v node rest hne hvis ih =>
    intro hstk hrun
    rw [dfs_find, if_neg hne, if_neg hvis] at hrun
    apply ih ?_ hrun
    intro n hn
    rcases List.mem_append.mp hn with hn | hn
    · rw [List.mem_reverse] at hn
      exact (hstk node (List.mem_cons_self _ _)).snoc hn
    · exact hstk n (List.mem_cons_of_mem _ hn)

theorem dfs_find_complete (deps : List StageDependency) (target : UUID) :
    ∀ visited stack : List UUID,
      dfs_find deps target visited stack = false →
      (∀ v ∈ visited, ∀ w ∈ adjacency_of deps v, w ∈ visited ∨ w ∈ stack) →
      target ∉ visited →
      ∀ x : UUID, (x ∈ visited ∨ x ∈ stack) → ¬ Reach deps x target := by
  intro visited stack
  induction visited, stack using dfs_find.induct deps target with
  | case1 v =>
    intro _ hcl htv x hx hr
    rcases hx with hx | hx
    · exact htv (Reach.mem_closed (fun a ha w hw => by
        rcases hcl a ha w hw with h | h
        · exact h
        · cases h) hr hx)
    · cases hx
  | case2 v rest =>
    intro hrun
    rw [dfs_find, if_pos rfl] at hrun
    cases hrun
  | case3 v node rest hne hvis ih =>
    intro hrun hcl htv x hx hr
    rw [dfs_find, if_neg hne, if_pos hvis] at hrun
    have hnodemem : node ∈ v := by
      rw [← List.elem_iff]
      exact hvis
    refine ih hrun ?_ htv x ?_ hr
    · intro a ha w hw
      rcases hcl a ha w hw with h | h
      · exact Or.inl h
      · rcases List.mem_cons.mp h with h | h
        · exact Or.inl (h ▸ hnodemem)
        · exact Or.inr h
    · rcases hx with hx | hx
      · exact Or.inl hx
      · rcases List.mem_cons.mp hx with hx | hx
        · exact Or.inl (hx ▸ hnodemem)
        · exact Or.inr hx
  | case4 v node rest hne hvis ih =>
    intro hrun hcl htv x hx hr
    rw [dfs_find, if_neg hne, if_neg hvis] at hrun
    refine ih hrun ?_ ?_ x ?_ hr
    · intro a ha w hw
      rcases List.mem_cons.mp ha with ha | ha
      · subst ha
        refine Or.inr (List.mem_append_left _ ?_)
        rw [List.mem_reverse]
        exact hw
      · rcases hcl a ha w hw with h | h
        · exact Or.inl (List.mem_cons_of_mem _ h)
        · rcases List.mem_cons.mp h with h | h
          · exact Or.inl (h ▸ List.mem_cons_self _ _)
          · exact Or.inr (List.mem_append_right _ h)
    · intro htv'
      rcases List.mem_cons.mp htv' with h | h
      · exact hne h.symm
      · exact htv h
    · rcases hx with hx | hx
      · exact Or.inl (List.mem_cons_of_mem _ hx)
      · rcases List.mem_cons.mp hx with hx | hx
        · exact Or.inl (hx ▸ List.mem_cons_self _ _)
        · exact Or.inr (List.mem_append_right _ hx)

theorem would_create_cycle_iff (pred succ : UUID)
    (deps : List StageDependency) :
    would_create_cycle pred succ deps = true ↔ Reach deps succ pred := by
  constructor
  · intro h
    refine dfs_find_sound deps pred succ [] [succ] ?_ h
    intro n hn
    rcases List.mem_cons.mp hn with hn | hn
    · subst hn
      exact Reach.refl _
    · cases hn
  · intro hr
    by_contra hfalse
    have hf : would_create_cycle pred succ deps = false :=
      Bool.eq_false_iff.mpr hfalse
    exact dfs_find_complete deps pred [] [succ] hf
      (fun v hv => absurd hv (List.not_mem_nil v))
      (List.not_mem_nil pred) succ (Or.inr (List.mem_cons_self _ _)) hr

/-- Presence of a directed cycle: some edge closes a loop, that is, a
directed path leads from the successor of some edge back to its
predecessor. -/
def HasCycle (deps : List StageDependency) : Prop :=
  ∃ d ∈ deps, Reach deps d.successor_stage_id d.predecessor_stage_id

theorem adjacency_of_append (deps extra : List StageDependency) (node : UUID) :
    adjacency_of (deps ++ extra) node =
      adjacency_of deps node ++ adjacency_of extra node := by
  unfold adjacency_of
  rw [List.filter_append, List.map_append]

theorem mem_adjacency_singleton {e : StageDependency} {a b : UUID}
    (h : b ∈ adjacency_of [e] a) :
    e.predecessor_stage_id = a ∧ b = e.successor_stage_id := by
  unfold adjacency_of at h
  by_cases hp : e.predecessor_stage_id = a
  · refine ⟨hp, ?_⟩
    simp [List.filter_cons, hp] at h
    exact h
  · simp [List.filter_cons, hp] at h

theorem succ_mem_adjacency {deps : List StageDependency} {d : StageDependency}
    (hd : d ∈ deps) :
    d.successor_stage_id ∈ adjacency_of deps d.predecessor_stage_id := by
  unfold adjacency_of
  rw [List.mem_map]
  exact ⟨d, List.mem_filter.mpr ⟨hd, by simp⟩, rfl⟩

theorem reach_append_elim {deps : List StageDependency} {e : StageDependency} :
    ∀ {x y : UUID}, Reach (deps ++ [e]) x y →
      Reach deps x y ∨ (Reach deps x e.predecessor_stage_id ∧
        Reach (deps ++ [e]) e.successor_stage_id y) := by
  intro x y h
  induction h with
  | refl => exact Or.inl (Reach.refl _)
  | head hedge hr ih =>
    rename_i a b c
    rw [adjacency_of_append] at hedge
    rcases List.mem_append.mp hedge with hb | hb
    · rcases ih with h1 | ⟨h1, h2⟩
      · exact Or.inl (Reach.head hb h1)
      · exact Or.inr ⟨Reach.head hb h1, h2⟩
    · obtain ⟨hpa, hbs⟩ := mem_adjacency_singleton hb
      subst hpa
      subst hbs
      exact Or.inr ⟨Reach.refl _, hr⟩

theorem reach_append_of_not {deps : List StageDependency} {e : StageDependency}
    (hnp : ¬ Reach deps e.successor_stage_id e.predecessor_stage_id)
    {y : UUID} (h : Reach (deps ++ [e]) e.successor_stage_id y) :
    Reach deps e.successor_stage_id y := by
  rcases reach_append_elim h with h1 | ⟨h1, _⟩
  · exact h1
  · exact absurd h1 hnp

theorem acyclic_insert {deps : List StageDependency} {e : StageDependency}
    (hnew : ¬ Reach deps e.successor_stage_id e.predecessor_stage_id)
    (hold : ¬ HasCycle deps) : ¬ HasCycle (deps ++ [e]) := by
  rintro ⟨d, hd, hr⟩
  rcases List.mem_append.mp hd with hd | hd
  · rcases reach_append_elim hr with h1 | ⟨h1, h2⟩
    · exact hold ⟨d, hd, h1⟩
    · have h2' := reach_append_of_not hnew h2
      exact hnew (((h2'.snoc (succ_mem_adjacency hd)).trans h1))
  · have hde : d = e := by
      rcases List.mem_cons.mp hd with h | h
      · exact h
      · cases h
    subst hde
    exact hnew (reach_append_of_not hnew hr)


/-- Sample dependency from stage 1 to stage 2. -/
def dep_one_two : StageDependency :=
  { id := 11
    project_id := 0
    predecessor_stage_id := 1
    successor_stage_id := 2
    dependency_type := "finish_to_start"
    created_at := 0 }

/-- Sample dependency from stage 2 back to stage 1, closing a cycle
with dep_one_two. -/
def dep_two_one : StageDependency :=
  { id := 12
    project_id := 0
    predecessor_stage_id := 2
    successor_stage_id := 1
    dependency_type := "finish_to_start"
    created_at := 0 }

/-- Sample dependency from stage 2 to stage 3. -/
def dep_two_three : StageDependency :=
  { id := 13
    project_id := 0
    predecessor_stage_id := 2
    successor_stage_id := 3
    dependency_type := "finish_to_start"
    created_at := 0 }

/-- Sample role assignment giving stakeholder 7 the Lead Project
Manager role. -/
def pm_assign : ProjectStakeholder :=
  { id := 0
    project_id := 0
    stakeholder_id := 7
    role := StakeholderRole.lead_project_manager
    assigned_at := 0 }

/-- Edge returned by add_dependency in the C1 counterexample run. -/
def c1_new_edge : StageDependency :=
  { id := 99
    project_id := 0
    predecessor_stage_id := 3
    successor_stage_id := 4
    dependency_type := "finish_to_start"
    created_at := 5 }

/-- C1 counterexample: with the pre-existing edge set already cyclic
(stage 1 to stage 2 and stage 2 back to stage 1), a Lead Project
Manager adds a fresh edge from stage 3 to stage 4; no path leads from
4 back to 3, so the call succeeds, yet the edge set consisting of
existing_dependencies plus the returned edge contains a directed
cycle, contradicting the unconditional acyclicity clause of the
claim. -/
theorem C1_counterexample :
    add_dependency 0 3 4 [dep_one_two, dep_two_one] [pm_assign] 7 99 5 =
      Except.ok c1_new_edge ∧
    HasCycle ([dep_one_two, dep_two_one] ++ [c1_new_edge]) := by
  constructor
  · simp [add_dependency, require_role, would_create_cycle, dfs_find,
      adjacency_of, dep_one_two, dep_two_one, pm_assign, c1_new_edge]
  · refine ⟨dep_one_two, by simp, ?_⟩
    refine Reach.head ?_ (Reach.refl 1)
    show (1 : UUID) ∈ adjacency_of ([dep_one_two, dep_two_one] ++ [c1_new_edge])
      dep_one_two.successor_stage_id
    simp [adjacency_of, dep_one_two, dep_two_one, c1_new_edge]

/-- C1 (amended): for a caller holding the Lead Project Manager role,
with predecessor distinct from successor and the ordered pair not
already present, add_dependency fails with the cycle error exactly
when a directed path leads from the new successor back to the new
predecessor in the graph formed by existing_dependencies; when it
instead returns a new edge and existing_dependencies itself contains
no directed cycle, the edge set consisting of existing_dependencies
plus the returned edge contains no directed cycle; and in the
rejection case the persisted edge set is left unchanged. -/
theorem C1_add_dependency_cycle_sound (project_id predecessor successor : UUID)
    (deps : List StageDependency) (pss : List ProjectStakeholder)
    (actor : UUID) (new_id now : Nat)
    (hrole : require_role pss actor [StakeholderRole.lead_project_manager] =
      Except.ok ())
    (hne : predecessor ≠ successor)
    (hdup : ∀ d ∈ deps, ¬ (d.predecessor_stage_id = predecessor ∧
      d.successor_stage_id = successor)) :
    (add_dependency project_id predecessor successor deps pss actor new_id now =
        Except.error "Adding this dependency would create a circular dependency chain." ↔
      Reach deps successor predecessor) ∧
    (∀ e, add_dependency project_id predecessor successor deps pss actor new_id now =
        Except.ok e → ¬ HasCycle deps → ¬ HasCycle (deps ++ [e])) ∧
    (∀ msg, add_dependency project_id predecessor successor deps pss actor new_id now =
        Except.error msg →
      edges_after deps
        (add_dependency project_id predecessor successor deps pss actor new_id now) =
        deps) := by
  have hany : (deps.any fun dep => dep.predecessor_stage_id == predecessor &&
      dep.successor_stage_id == successor) = false := by
    rw [List.any_eq_false]
    intro d hd
    have h := hdup d hd
    simp only [Bool.and_eq_true, beq_iff_eq]
    tauto
  have hred : add_dependency project_id predecessor successor deps pss actor new_id now =
      if would_create_cycle predecessor successor deps then
        Except.error "Adding this dependency would create a circular dependency chain."
      else
        Except.ok
          { id := new_id
            project_id := project_id
            predecessor_stage_id := predecessor
            successor_stage_id := successor
            dependency_type := "finish_to_start"
            created_at := now } := by
    unfold add_dependency
    rw [hrole, if_neg hne]
    simp [hany]
  refine ⟨?_, ?_, ?_⟩
  · by_cases hcyc : would_create_cycle predecessor successor deps = true
    · rw [hred, if_pos hcyc]
      constructor
      · intro _
        exact (would_create_cycle_iff predecessor successor deps).mp hcyc
      · intro _
        rfl
    · rw [hred, if_neg hcyc]
      constructor
      · intro h
        exact Except.noConfusion h
      · intro hr
        exact absurd ((would_create_cycle_iff predecessor successor deps).mpr hr)
          hcyc
  · intro e he hacyc
    rw [hred] at he
    by_cases hcyc : would_create_cycle predecessor successor deps = true
    · rw [if_pos hcyc] at he
      exact Except.noConfusion he
    · rw [if_neg hcyc] at he
      have he' := Except.ok.inj he
      subst he'
      apply acyclic_insert ?_ hacyc
      intro hr
      exact hcyc ((would_create_cycle_iff predecessor successor deps).mpr hr)
  · intro msg hmsg
    rw [hmsg]
    rfl

/-- C1 witness: the scenario of the spec, stages 1, 2, 3 with edges 1
to 2 and 2 to 3; adding 3 to 1 is a cycle, and the amended theorem
applies with all hypotheses discharged concretely. -/
theorem C1_add_dependency_cycle_sound_witness :
    (add_dependency 0 3 1 [dep_one_two, dep_two_three] [pm_assign] 7 99 5 =
        Except.error "Adding this dependency would create a circular dependency chain." ↔
      Reach [dep_one_two, dep_two_three] 1 3) ∧
    (∀ e, add_dependency 0 3 1 [dep_one_two, dep_two_three] [pm_assign] 7 99 5 =
        Except.ok e → ¬ HasCycle [dep_one_two, dep_two_three] →
        ¬ HasCycle ([dep_one_two, dep_two_three] ++ [e])) ∧
    (∀ msg, add_dependency 0 3 1 [dep_one_two, dep_two_three] [pm_assign] 7 99 5 =
        Except.error msg →
      edges_after [dep_one_two, dep_two_three]
        (add_dependency 0 3 1 [dep_one_two, dep_two_three] [pm_assign] 7 99 5) =
        [dep_one_two, dep_two_three]) :=
  C1_add_dependency_cycle_sound 0 3 1 [dep_one_two, dep_two_three] [pm_assign]
    7 99 5 rfl (by decide) (by decide)

/-- Sample stage with every optional field absent. -/
def stage_zero : Stage :=
  { id := 100
    phase_id := 10
    project_id := 0
    name := "S"
    description := ""
    order := 1
    planned_start_date := none
    planned_end_date := none
    planned_duration_days := none
    actual_start_date := none
    actual_end_date := none
    actual_duration_days := none
    baseline_start_date := none
    baseline_end_date := none
    baseline_duration_days := none
    status := StageStatus.not_started
    progress_pct := 0
    comments := ""
    deviation_days := none
    deviation_status := none
    created_at := 0
    updated_at := 0
    updated_by_id := none }

/-- C5: compute_deviation clears both deviation fields when either the
planned end date or the baseline end date is absent; otherwise it sets
deviation_days to the signed day difference of planned end minus
baseline end, with status delayed when positive, ahead when negative
and on_baseline when zero; and the concrete scenario with planned end
2024-03-10 against baseline end 2024-03-01 yields 9 days delayed. -/
theorem C5_compute_deviation_correct (stage : Stage) :
    ((stage.planned_end_date = none ∨ stage.baseline_end_date = none) →
      (compute_deviation stage).deviation_days = none ∧
      (compute_deviation stage).deviation_status = none) ∧
    (∀ pe be, stage.planned_end_date = some pe →
      stage.baseline_end_date = some be →
      (compute_deviation stage).deviation_days = some (date_sub pe be) ∧
      (0 < date_sub pe be →
        (compute_deviation stage).deviation_status = some DeviationStatus.delayed) ∧
      (date_sub pe be < 0 →
        (compute_deviation stage).deviation_status = some DeviationStatus.ahead) ∧
      (date_sub pe be = 0 →
        (compute_deviation stage).deviation_status = some DeviationStatus.on_baseline)) ∧
    ((compute_deviation { stage_zero with
        planned_end_date := some ⟨2024, 3, 10⟩
        baseline_end_date := some ⟨2024, 3, 1⟩ }).deviation_days = some 9 ∧
     (compute_deviation { stage_zero with
        planned_end_date := some ⟨2024, 3, 10⟩
        baseline_end_date := some ⟨2024, 3, 1⟩ }).deviation_status =
       some DeviationStatus.delayed) := by
  refine ⟨?_, ?_, ?_⟩
  · intro h
    unfold compute_deviation
    rcases hp : stage.planned_end_date with _ | pe <;>
      rcases hb : stage.baseline_end_date with _ | be <;>
      simp_all
  · intro pe be hp hb
    unfold compute_deviation
    rw [hp, hb]
    refine ⟨rfl, ?_, ?_, ?_⟩ <;> intro hd <;>
      simp only [Option.some.injEq] <;> split_ifs <;> first | rfl | omega
  · constructor <;> decide

/-- C5 witness: the theorem applied to the concrete scenario stage. -/
theorem C5_compute_deviation_correct_witness :
    (compute_deviation { stage_zero with
        planned_end_date := some ⟨2024, 3, 10⟩
        baseline_end_date := some ⟨2024, 3, 1⟩ }).deviation_days =
      some (date_sub ⟨2024, 3, 10⟩ ⟨2024, 3, 1⟩) :=
  ((C5_compute_deviation_correct { stage_zero with
      planned_end_date := some ⟨2024, 3, 10⟩
      baseline_end_date := some ⟨2024, 3, 1⟩ }).2.1
    ⟨2024, 3, 10⟩ ⟨2024, 3, 1⟩ rfl rfl).1

/-- C6: compute_deviation is idempotent, and it modifies no stage field
other than deviation_days and deviation_status. -/
theorem C6_compute_deviation_idempotent (stage : Stage) :
    compute_deviation (compute_deviation stage) = compute_deviation stage ∧
    (compute_deviation stage).id = stage.id ∧
    (compute_deviation stage).phase_id = stage.phase_id ∧
    (compute_deviation stage).project_id = stage.project_id ∧
    (compute_deviation stage).name = stage.name ∧
    (compute_deviation stage).description = stage.description ∧
    (compute_deviation stage).order = stage.order ∧
    (compute_deviation stage).planned_start_date = stage.planned_start_date ∧
    (compute_deviation stage).planned_end_date = stage.planned_end_date ∧
    (compute_deviation stage).planned_duration_days = stage.planned_duration_days ∧
    (compute_deviation stage).actual_start_date = stage.actual_start_date ∧
    (compute_deviation stage).actual_end_date = stage.actual_end_date ∧
    (compute_deviation stage).actual_duration_days = stage.actual_duration_days ∧
    (compute_deviation stage).baseline_start_date = stage.baseline_start_date ∧
    (compute_deviation stage).baseline_end_date = stage.baseline_end_date ∧
    (compute_deviation stage).baseline_duration_days = stage.baseline_duration_days ∧
    (compute_deviation stage).status = stage.status ∧
    (compute_deviation stage).progress_pct = stage.progress_pct ∧
    (compute_deviation stage).comments = stage.comments ∧
    (compute_deviation stage).created_at = stage.created_at ∧
    (compute_deviation stage).updated_at = stage.updated_at ∧
    (compute_deviation stage).updated_by_id = stage.updated_by_id := by
  unfold compute_deviation
  rcases hp : stage.planned_end_date with _ | pe <;>
    rcases hb : stage.baseline_end_date with _ | be <;>
    simp_all

/-- Sample project with no schedule data. -/
def project_zero : Project :=
  { id := 1
    name := "Hull 42"
    description := ""
    shipyard_name := "Yard"
    vessel_type := "Bulk"
    planned_start_date := none
    planned_end_date := none
    actual_start_date := none
    actual_end_date := none
    overall_progress_pct := 0
    total_planned_duration_days := 0
    total_actual_duration_days := 0
    total_baseline_duration_days := 0
    active_baseline_id := none
    created_at := 0
    updated_at := 0
    created_by_id := none }

/-- C7: recalculate_progress sets overall_progress_pct to the
arithmetic mean over all stages (dividing by the full stage count) and
0 when no stage exists, and sets each duration total to the sum of the
respective per-stage durations with absent values counted as 0; the
three-stage scenario with progress 0, 50 and 100 yields 50. -/
theorem C7_recalculate_progress_correct (project : Project)
    (stages : List Stage) (now : Nat) :
    (stages = [] →
      (recalculate_progress project stages now).overall_progress_pct = 0 ∧
      (recalculate_progress project stages now).total_planned_duration_days = 0 ∧
      (recalculate_progress project stages now).total_actual_duration_days = 0 ∧
      (recalculate_progress project stages now).total_baseline_duration_days = 0) ∧
    (stages ≠ [] →
      (recalculate_progress project stages now).overall_progress_pct =
        (stages.map (fun s => s.progress_pct)).sum / (stages.length : Rat) ∧
      (recalculate_progress project stages now).total_planned_duration_days =
        (stages.map (fun s => s.planned_duration_days.getD 0)).sum ∧
      (recalculate_progress project stages now).total_actual_duration_days =
        (stages.map (fun s => s.actual_duration_days.getD 0)).sum ∧
      (recalculate_progress project stages now).total_baseline_duration_days =
        (stages.map (fun s => s.baseline_duration_days.getD 0)).sum) ∧
    (recalculate_progress project_zero
        [{ stage_zero with progress_pct := 0 },
         { stage_zero with progress_pct := 50 },
         { stage_zero with progress_pct := 100 }] 3).overall_progress_pct = 50 := by
  refine ⟨?_, ?_, ?_⟩
  · intro h
    subst h
    unfold recalculate_progress
    simp
  · intro h
    unfold recalculate_progress
    rw [if_neg (by simpa using h)]
    exact ⟨rfl, rfl, rfl, rfl⟩
  · unfold recalculate_progress
    rw [if_neg (by decide)]
    norm_num

/-- C7 witness: the theorem applied to the three-stage scenario. -/
theorem C7_recalculate_progress_correct_witness :
    (recalculate_progress project_zero
        [{ stage_zero with progress_pct := 0 },
         { stage_zero with progress_pct := 50 },
         { stage_zero with progress_pct := 100 }] 3).overall_progress_pct =
      ([{ stage_zero with progress_pct := 0 },
        { stage_zero with progress_pct := 50 },
        { stage_zero with progress_pct := 100 }].map
          (fun s => s.progress_pct)).sum / (3 : Rat) :=
  ((C7_recalculate_progress_correct project_zero
      [{ stage_zero with progress_pct := 0 },
       { stage_zero with progress_pct := 50 },
       { stage_zero with progress_pct := 100 }] 3).2.1 (by decide)).1

/-- Specification of a chronological minimum: none exactly for the
empty list, otherwise some member that is no later than every
member. -/
def is_min_date (l : List CalDate) (r : Option CalDate) : Prop :=
  (l = [] ∧ r = none) ∨
    (∃ m, r = some m ∧ m ∈ l ∧ ∀ x ∈ l, m.toDays ≤ x.toDays)

/-- Specification of a chronological maximum: none exactly for the
empty list, otherwise some member that is no earlier than every
member. -/
def is_max_date (l : List CalDate) (r : Option CalDate) : Prop :=
  (l = [] ∧ r = none) ∨
    (∃ m, r = some m ∧ m ∈ l ∧ ∀ x ∈ l, x.toDays ≤ m.toDays)

theorem dmin_mem (a b : CalDate) : dmin a b = a ∨ dmin a b = b := by
  unfold dmin
  split
  · exact Or.inr rfl
  · exact Or.inl rfl

theorem dmin_le_left (a b : CalDate) : (dmin a b).toDays ≤ a.toDays := by
  unfold dmin
  split <;> omega

theorem dmin_le_right (a b : CalDate) : (dmin a b).toDays ≤ b.toDays := by
  unfold dmin
  split <;> omega

theorem dmax_mem (a b : CalDate) : dmax a b = a ∨ dmax a b = b := by
  unfold dmax
  split
  · exact Or.inr rfl
  · exact Or.inl rfl

theorem dmax_ge_left (a b : CalDate) : a.toDays ≤ (dmax a b).toDays := by
  unfold dmax
  split <;> omega

theorem dmax_ge_right (a b : CalDate) : b.toDays ≤ (dmax a b).toDays := by
  unfold dmax
  split <;> omega

theorem foldl_dmin_mem :
    ∀ (xs : List CalDate) (x : CalDate),
      xs.foldl dmin x = x ∨ xs.foldl dmin x ∈ xs := by
  intro xs
  induction xs with
  | nil =>
    intro x
    exact Or.inl rfl
  | cons y ys ih =>
    intro x
    rw [List.foldl_cons]
    rcases ih (dmin x y) with h | h
    · rcases dmin_mem x y with h2 | h2
      · exact Or.inl (h.trans h2)
      · exact Or.inr (by rw [h, h2]; exact List.mem_cons_self _ _)
    · exact Or.inr (List.mem_cons_of_mem _ h)

theorem foldl_dmin_le :
    ∀ (xs : List CalDate) (x : CalDate),
      (xs.foldl dmin x).toDays ≤ x.toDays ∧
        ∀ y ∈ xs, (xs.foldl dmin x).toDays ≤ y.toDays := by
  intro xs
  induction xs with
  | nil =>
    intro x
    refine ⟨le_refl _, ?_⟩
    intro y hy
    cases hy
  | cons z zs ih =>
    intro x
    rw [List.foldl_cons]
    obtain ⟨h1, h2⟩ := ih (dmin x z)
    refine ⟨le_trans h1 (dmin_le_left x z), ?_⟩
    intro y hy
    rcases List.mem_cons.mp hy with hy | hy
    · rw [hy]
      exact le_trans h1 (dmin_le_right x z)
    · exact h2 y hy

theorem foldl_dmax_mem :
    ∀ (xs : List CalDate) (x : CalDate),
      xs.foldl dmax x = x ∨ xs.foldl dmax x ∈ xs := by
  intro xs
  induction xs with
  | nil =>
    intro x
    exact Or.inl rfl
  | cons y ys ih =>
    intro x
    rw [List.foldl_cons]
    rcases ih (dmax x y) with h | h
    · rcases dmax_mem x y with h2 | h2
      · exact Or.inl (h.trans h2)
      · exact Or.inr (by rw [h, h2]; exact List.mem_cons_self _ _)
    · exact Or.inr (List.mem_cons_of_mem _ h)

theorem foldl_dmax_ge :
    ∀ (xs : List CalDate) (x : CalDate),
      x.toDays ≤ (xs.foldl dmax x).toDays ∧
        ∀ y ∈ xs, y.toDays ≤ (xs.foldl dmax x).toDays := by
  intro xs
  induction xs with
  | nil =>
    intro x
    refine ⟨le_refl _, ?_⟩
    intro y hy
    cases hy
  | cons z zs ih =>
    intro x
    rw [List.foldl_cons]
    obtain ⟨h1, h2⟩ := ih (dmax x z)
    refine ⟨le_trans (dmax_ge_left x z) h1, ?_⟩
    intro y hy
    rcases List.mem_cons.mp hy with hy | hy
    · rw [hy]
      exact le_trans (dmax_ge_right x z) h1
    · exact h2 y hy

theorem list_min_date_spec (l : List CalDate) : is_min_date l (list_min_date l) := by
  cases l with
  | nil => exact Or.inl ⟨rfl, rfl⟩
  | cons x xs =>
    refine Or.inr ⟨xs.foldl dmin x, rfl, ?_, ?_⟩
    · rcases foldl_dmin_mem xs x with h | h
      · rw [h]
        exact List.mem_cons_self _ _
      · exact List.mem_cons_of_mem _ h
    · intro y hy
      rcases List.mem_cons.mp hy with hy | hy
      · rw [hy]
        exact (foldl_dmin_le xs x).1
      · exact (foldl_dmin_le xs x).2 y hy

theorem list_max_date_spec (l : List CalDate) : is_max_date l (list_max_date l) := by
  cases l with
  | nil => exact Or.inl ⟨rfl, rfl⟩
  | cons x xs =>
    refine Or.inr ⟨xs.foldl dmax x, rfl, ?_, ?_⟩
    · rcases foldl_dmax_mem xs x with h | h
      · rw [h]
        exact List.mem_cons_self _ _
      · exact List.mem_cons_of_mem _ h
    · intro y hy
      rcases List.mem_cons.mp hy with hy | hy
      · rw [hy]
        exact (foldl_dmax_ge xs x).1
      · exact (foldl_dmax_ge xs x).2 y hy

/-- Sample phase with identifier 10 and no summary data. -/
def phase_zero : Phase :=
  { id := 10
    project_id := 1
    name := "Fabrication"
    description := ""
    order := 1
    overall_progress_pct := 0
    planned_start_date := none
    planned_end_date := none
    actual_start_date := none
    actual_end_date := none
    created_at := 0
    updated_at := 0 }

/-- C8 counterexample: a phase that currently carries a planned start
date and has no child stages; recalculate_phase_progress yields 0
progress but keeps the stale planned start date instead of the null
the claim demands. -/
theorem C8_counterexample :
    (recalculate_phase_progress
        { phase_zero with planned_start_date := some ⟨2024, 1, 1⟩ } [] 5).overall_progress_pct = 0 ∧
    (recalculate_phase_progress
        { phase_zero with planned_start_date := some ⟨2024, 1, 1⟩ } [] 5).planned_start_date ≠ none := by
  constructor
  · rfl
  · intro h
    exact Option.noConfusion h

/-- C8 (amended): recalculate_phase_progress sets overall_progress_pct
to the mean of the child stages progress values; the planned and
actual start dates become the chronological minimum of the child
stages respective non-null start dates and the end dates the maximum
of the non-null end dates (none when no child supplies the date); and
when the phase has no child stages it yields 0 progress while leaving
the four summary date fields unchanged (they are null only if they
were already null). -/
theorem C8_recalculate_phase_progress_correct (phase : Phase)
    (stages : List Stage) (now : Nat) :
    ((stages.filter fun s => s.phase_id == phase.id) = [] →
      (recalculate_phase_progress phase stages now).overall_progress_pct = 0 ∧
      (recalculate_phase_progress phase stages now).planned_start_date =
        phase.planned_start_date ∧
      (recalculate_phase_progress phase stages now).planned_end_date =
        phase.planned_end_date ∧
      (recalculate_phase_progress phase stages now).actual_start_date =
        phase.actual_start_date ∧
      (recalculate_phase_progress phase stages now).actual_end_date =
        phase.actual_end_date) ∧
    ((stages.filter fun s => s.phase_id == phase.id) ≠ [] →
      (recalculate_phase_progress phase stages now).overall_progress_pct =
        ((stages.filter fun s => s.phase_id == phase.id).map
            (fun s => s.progress_pct)).sum /
          (((stages.filter fun s => s.phase_id == phase.id)).length : Rat) ∧
      is_min_date
        ((stages.filter fun s => s.phase_id == phase.id).filterMap
          (fun s => s.planned_start_date))
        (recalculate_phase_progress phase stages now).planned_start_date ∧
      is_max_date
        ((stages.filter fun s => s.phase_id == phase.id).filterMap
          (fun s => s.planned_end_date))
        (recalculate_phase_progress phase stages now).planned_end_date ∧
      is_min_date
        ((stages.filter fun s => s.phase_id == phase.id).filterMap
          (fun s => s.actual_start_date))
        (recalculate_phase_progress phase stages now).actual_start_date ∧
      is_max_date
        ((stages.filter fun s => s.phase_id == phase.id).filterMap
          (fun s => s.actual_end_date))
        (recalculate_phase_progress phase stages now).actual_end_date) := by
  constructor
  · intro hps
    simp only [recalculate_phase_progress]
    rw [hps]
    simp
  · intro hps
    have hempty : (stages.filter fun s => s.phase_id == phase.id).isEmpty = false := by
      rw [List.isEmpty_eq_false]
      simpa using hps
    simp only [recalculate_phase_progress]
    rw [hempty]
    simp only [Bool.false_eq_true, if_false]
    exact ⟨trivial, list_min_date_spec _, list_max_date_spec _,
      list_min_date_spec _, list_max_date_spec _⟩

/-- C8 witness: the amended theorem applied to a phase with one child
stage carrying concrete dates. -/
theorem C8_recalculate_phase_progress_correct_witness :
    is_min_date
      (([{ stage_zero with
            planned_start_date := some ⟨2024, 1, 5⟩
            planned_end_date := some ⟨2024, 2, 5⟩ }].filter
          (fun s => s.phase_id == phase_zero.id)).filterMap
        (fun s => s.planned_start_date))
      (recalculate_phase_progress phase_zero
        [{ stage_zero with
            planned_start_date := some ⟨2024, 1, 5⟩
            planned_end_date := some ⟨2024, 2, 5⟩ }] 0).planned_start_date :=
  ((C8_recalculate_phase_progress_correct phase_zero
      [{ stage_zero with
          planned_start_date := some ⟨2024, 1, 5⟩
          planned_end_date := some ⟨2024, 2, 5⟩ }] 0).2 (by decide)).2.1

/-- Sample pending scope-change request with designated approver 8. -/
def cr_pending_scope : ChangeRequest :=
  { id := 50
    project_id := 1
    requested_by_id := 7
    approver_id := some 8
    change_type := ChangeType.scope_change
    reason := "scope grows"
    schedule_impact_days := 14
    cost_impact := none
    status := ChangeRequestStatus.pending
    reviewed_at := none
    reviewer_comments := ""
    stakeholder_comments := ""
    submitted_at := 0
    updated_at := 0 }

/-- Sample change request already approved. -/
def cr_already_approved : ChangeRequest :=
  { cr_pending_scope with
      id := 51
      change_type := ChangeType.delay
      status := ChangeRequestStatus.approved
      reviewed_at := some 2
      reviewer_comments := "fine" }

/-- C3: on a change request whose status is not pending, both
approve_change_request and reject_change_request fail with the state
error, and the stored change request record is left unchanged, so a
change request transitions at most once out of pending. -/
theorem C3_change_request_terminal (cr : ChangeRequest) (reviewer_id : UUID)
    (rc : String) (pss : List ProjectStakeholder) (now : Nat)
    (h : cr.status ≠ ChangeRequestStatus.pending) :
    approve_change_request cr reviewer_id rc pss now =
      Except.error "Only PENDING change requests can be approved." ∧
    reject_change_request cr reviewer_id rc pss now =
      Except.error "Only PENDING change requests can be rejected." ∧
    change_request_after cr (approve_change_request cr reviewer_id rc pss now) = cr ∧
    change_request_after cr (reject_change_request cr reviewer_id rc pss now) = cr := by
  have ha : approve_change_request cr reviewer_id rc pss now =
      Except.error "Only PENDING change requests can be approved." := by
    unfold approve_change_request
    rw [if_pos h]
  have hr : reject_change_request cr reviewer_id rc pss now =
      Except.error "Only PENDING change requests can be rejected." := by
    unfold reject_change_request
    rw [if_pos h]
  refine ⟨ha, hr, ?_, ?_⟩
  · rw [ha]
    rfl
  · rw [hr]
    rfl

/-- C3 witness: both calls fail on an already approved request. -/
theorem C3_change_request_terminal_witness :
    approve_change_request cr_already_approved 8 "again" [] 9 =
      Except.error "Only PENDING change requests can be approved." ∧
    reject_change_request cr_already_approved 8 "again" [] 9 =
      Except.error "Only PENDING change requests can be rejected." ∧
    change_request_after cr_already_approved
      (approve_change_request cr_already_approved 8 "again" [] 9) =
      cr_already_approved ∧
    change_request_after cr_already_approved
      (reject_change_request cr_already_approved 8 "again" [] 9) =
      cr_already_approved :=
  C3_change_request_terminal cr_already_approved 8 "again" [] 9 (by decide)

/-- C4: on a pending scope_change request reviewed by its designated
approver with nonblank comments, approve_change_request fails with the
missing role error exactly when the reviewer holds no
Owner-Representative assignment among the project stakeholders, and
on that failure the stored change request is unchanged (in particular
it stays pending). -/
theorem C4_scope_change_owner_approval (cr : ChangeRequest)
    (reviewer_id : UUID) (rc : String) (pss : List ProjectStakeholder)
    (now : Nat)
    (hpend : cr.status = ChangeRequestStatus.pending)
    (htype : cr.change_type = ChangeType.scope_change)
    (happr : cr.approver_id = some reviewer_id)
    (hcomm : ¬ is_blank rc = true) :
    (approve_change_request cr reviewer_id rc pss now =
        Except.error "Stakeholder does not hold any of the required roles." ↔
      ∀ ps ∈ pss, ¬ (ps.stakeholder_id = reviewer_id ∧
        ps.role = StakeholderRole.owner_representative)) ∧
    ((∀ ps ∈ pss, ¬ (ps.stakeholder_id = reviewer_id ∧
        ps.role = StakeholderRole.owner_representative)) →
      change_request_after cr (approve_change_request cr reviewer_id rc pss now) = cr) := by
  have hred : approve_change_request cr reviewer_id rc pss now =
      match require_role pss reviewer_id [StakeholderRole.owner_representative] with
      | Except.error e => Except.error e
      | Except.ok _ =>
        Except.ok { cr with
          status := ChangeRequestStatus.approved
          reviewed_at := some now
          reviewer_comments := rc
          updated_at := now } := by
    unfold approve_change_request
    rw [if_neg (fun hcon => hcon hpend), if_neg (fun hcon => hcon happr),
      if_neg hcomm, if_pos htype]
  have hiff : require_role pss reviewer_id [StakeholderRole.owner_representative] =
      Except.error "Stakeholder does not hold any of the required roles." ↔
      ∀ ps ∈ pss, ¬ (ps.stakeholder_id = reviewer_id ∧
        ps.role = StakeholderRole.owner_representative) := by
    unfold require_role
    by_cases hany : (pss.any fun ps => ps.stakeholder_id == reviewer_id &&
        [StakeholderRole.owner_representative].contains ps.role) = true
    · rw [if_pos hany]
      constructor
      · intro hcon
        exact Except.noConfusion hcon
      · intro hall
        obtain ⟨ps, hmem, hf⟩ := List.any_eq_true.mp hany
        rw [Bool.and_eq_true, beq_iff_eq] at hf
        refine absurd ?_ (hall ps hmem)
        refine ⟨hf.1, ?_⟩
        have := hf.2
        simp only [List.contains_cons, List.contains_nil, Bool.or_false,
          beq_iff_eq] at this
        exact this
    · rw [if_neg hany]
      constructor
      · intro _
        intro ps hmem hcon
        apply hany
        rw [List.any_eq_true]
        refine ⟨ps, hmem, ?_⟩
        rw [Bool.and_eq_true, beq_iff_eq]
        refine ⟨hcon.1, ?_⟩
        simp only [List.contains_cons, List.contains_nil, Bool.or_false,
          beq_iff_eq]
        exact hcon.2
      · intro _
        rfl
  constructor
  · rw [hred]
    rcases hrr : require_role pss reviewer_id
        [StakeholderRole.owner_representative] with e | u
    · constructor
      · intro hmsg
        have he : e = "Stakeholder does not hold any of the required roles." := by
          have : Except.error (α := ChangeRequest) e =
              Except.error "Stakeholder does not hold any of the required roles." := hmsg
          exact Except.error.inj this
        exact hiff.mp (he ▸ hrr)
      · intro hall
        have := hiff.mpr hall
        rw [hrr] at this
        rw [Except.error.inj this]
    · constructor
      · intro hcon
        exact Except.noConfusion hcon
      · intro hall
        have := hiff.mpr hall
        rw [hrr] at this
        exact Except.noConfusion this
  · intro hall
    have herr := hiff.mpr hall
    rw [hred, herr]
    rfl

/-- C4 witness: stakeholder 8 is the designated approver but holds
only the Lead Project Manager role, so approval of the pending scope
change fails with the missing role error. -/
theorem C4_scope_change_owner_approval_witness :
    (approve_change_request cr_pending_scope 8
        "looks good" [{ pm_assign with stakeholder_id := 8 }] 9 =
        Except.error "Stakeholder does not hold any of the required roles." ↔
      ∀ ps ∈ [{ pm_assign with stakeholder_id := 8 }],
        ¬ (ps.stakeholder_id = 8 ∧
          ps.role = StakeholderRole.owner_representative)) ∧
    ((∀ ps ∈ [{ pm_assign with stakeholder_id := 8 }],
        ¬ (ps.stakeholder_id = 8 ∧
          ps.role = StakeholderRole.owner_representative)) →
      change_request_after cr_pending_scope
        (approve_change_request cr_pending_scope 8
          "looks good" [{ pm_assign with stakeholder_id := 8 }] 9) =
        cr_pending_scope) :=
  C4_scope_change_owner_approval cr_pending_scope 8 "looks good"
    [{ pm_assign with stakeholder_id := 8 }] 9 rfl rfl rfl (by decide)

/-- C10: apply_progress_update replaces rather than merges the actual
dates: every accepted update leaves the stage with exactly the actual
dates passed in the call; in particular an accepted update with a
status other than completed passing none for both dates clears any
previously recorded actual dates while actual_duration_days keeps its
prior value. -/
theorem C10_progress_update_replaces_actuals (stage : Stage)
    (new_status : StageStatus) (p : Rat)
    (asd aed : Option CalDate) (comments : String) (uid : UUID) (now : Nat) :
    (∀ s2 u, apply_progress_update stage new_status p asd aed comments uid now =
        Except.ok (s2, u) →
      s2.actual_start_date = asd ∧ s2.actual_end_date = aed) ∧
    (new_status ≠ StageStatus.completed → 0 ≤ p → p ≤ 100 →
      ∃ s2 u, apply_progress_update stage new_status p none none comments uid now =
        Except.ok (s2, u) ∧
        s2.actual_start_date = none ∧ s2.actual_end_date = none ∧
        s2.actual_duration_days = stage.actual_duration_days) := by
  constructor
  · intro s2 u h
    unfold apply_progress_update at h
    split_ifs at h
    injection h with hpair
    injection hpair with hs hu
    subst hs
    exact ⟨rfl, rfl⟩
  · intro hst h0 h100
    unfold apply_progress_update
    rw [if_neg (not_not_intro ⟨h0, h100⟩), if_neg (by simp),
      if_neg (fun hcon => hst hcon.1)]
    exact ⟨_, _, rfl, rfl, rfl, rfl⟩

/-- Sample stage carrying recorded actuals. -/
def stage_with_actuals : Stage :=
  { stage_zero with
      actual_start_date := some ⟨2024, 1, 1⟩
      actual_end_date := some ⟨2024, 1, 10⟩
      actual_duration_days := some 9 }

/-- C10 witness: an accepted non-completed update with both actual
dates absent clears the recorded dates of stage_with_actuals and keeps
its actual_duration_days. -/
theorem C10_progress_update_replaces_actuals_witness :
    ∃ s2 u, apply_progress_update stage_with_actuals StageStatus.in_progress 40
        none none "rework" 7 8 = Except.ok (s2, u) ∧
      s2.actual_start_date = none ∧ s2.actual_end_date = none ∧
      s2.actual_duration_days = stage_with_actuals.actual_duration_days :=
  (C10_progress_update_replaces_actuals stage_with_actuals
      StageStatus.in_progress 40 none none "rework" 7 8).2
    (by decide) (by norm_num) (by norm_num)

theorem snapshot_stages_baseline_eq (baseline : Baseline) (stages : List Stage)
    (now : Nat) :
    ∀ s ∈ (snapshot_stages baseline stages now).2,
      s.baseline_start_date = s.planned_start_date ∧
      s.baseline_end_date = s.planned_end_date ∧
      s.baseline_duration_days = s.planned_duration_days := by
  intro s hs
  unfold snapshot_stages at hs
  obtain ⟨t, _ht, rfl⟩ := List.mem_map.mp hs
  exact ⟨rfl, rfl, rfl⟩

theorem compute_deviation_zero {s : Stage}
    (hbe : s.baseline_end_date = s.planned_end_date)
    (hp : s.planned_end_date.isSome = true) :
    (compute_deviation s).deviation_days = some 0 ∧
    (compute_deviation s).deviation_status = some DeviationStatus.on_baseline := by
  obtain ⟨pe, hpe⟩ := Option.isSome_iff_exists.mp hp
  unfold compute_deviation
  rw [hbe, hpe]
  simp [date_sub]

/-- C9: immediately after a successful set_initial_baseline or
reset_baseline, every returned updated stage carries baseline dates
and duration equal to its current planned dates and duration, so
compute_deviation on a returned stage with a non-null planned end
yields zero deviation days and on_baseline status. -/
theorem C9_baseline_snapshot_on_baseline
    (project : Project) (stages : List Stage) (cr : ChangeRequest)
    (set_by : UUID) (notes : String) (new_id now : Nat)
    (prev : List Baseline) (pss : Option (List ProjectStakeholder)) :
    (∀ b snaps stgs proj2,
      set_initial_baseline project stages cr set_by notes new_id now =
        Except.ok (b, snaps, stgs, proj2) →
      ∀ s ∈ stgs,
        s.baseline_start_date = s.planned_start_date ∧
        s.baseline_end_date = s.planned_end_date ∧
        s.baseline_duration_days = s.planned_duration_days ∧
        (s.planned_end_date.isSome = true →
          (compute_deviation s).deviation_days = some 0 ∧
          (compute_deviation s).deviation_status = some DeviationStatus.on_baseline)) ∧
    (∀ b snaps stgs prev2 proj2,
      reset_baseline project stages prev cr set_by notes pss new_id now =
        Except.ok (b, snaps, stgs, prev2, proj2) →
      ∀ s ∈ stgs,
        s.baseline_start_date = s.planned_start_date ∧
        s.baseline_end_date = s.planned_end_date ∧
        s.baseline_duration_days = s.planned_duration_days ∧
        (s.planned_end_date.isSome = true →
          (compute_deviation s).deviation_days = some 0 ∧
          (compute_deviation s).deviation_status = some DeviationStatus.on_baseline)) := by
  constructor
  · intro b snaps stgs proj2 h s hs
    unfold set_initial_baseline at h
    split_ifs at h
    injection h with hp4
    injection hp4 with h1 h234
    injection h234 with h2 h34
    injection h34 with h3 h4
    subst h3
    obtain ⟨e1, e2, e3⟩ := snapshot_stages_baseline_eq _ _ _ s hs
    exact ⟨e1, e2, e3, fun hp => compute_deviation_zero e2 hp⟩
  · intro b snaps stgs prev2 proj2 h s hs
    unfold reset_baseline at h
    split_ifs at h
    rcases hsc : scope_change_check cr pss with e | u
    all_goals rw [hsc] at h
    · exact Except.noConfusion h
    injection h with hp5
    injection hp5 with h1 h2345
    injection h2345 with h2 h345
    injection h345 with h3 h45
    subst h3
    obtain ⟨e1, e2, e3⟩ := snapshot_stages_baseline_eq _ _ _ s hs
    exact ⟨e1, e2, e3, fun hp => compute_deviation_zero e2 hp⟩

/-- Sample stage with planned dates only. -/
def stage_planned : Stage :=
  { stage_zero with
      planned_start_date := some ⟨2024, 1, 5⟩
      planned_end_date := some ⟨2024, 2, 5⟩
      planned_duration_days := some 31 }

/-- Sample approved initial-baseline change request. -/
def cr_initial_approved : ChangeRequest :=
  { cr_pending_scope with
      id := 52
      change_type := ChangeType.initial_baseline
      status := ChangeRequestStatus.approved
      reviewed_at := some 2
      reviewer_comments := "ok" }

/-- Baseline produced in the C9 witness run. -/
def baseline_initial : Baseline :=
  { id := 200
    project_id := 1
    version_number := 1
    set_by_id := 7
    set_at := 3
    is_active := true
    notes := "kickoff"
    change_request_id := some 52 }

/-- Stage returned by the C9 witness run, with baseline fields written. -/
def stage_snapshotted : Stage :=
  { stage_planned with
      baseline_start_date := some ⟨2024, 1, 5⟩
      baseline_end_date := some ⟨2024, 2, 5⟩
      baseline_duration_days := some 31
      updated_at := 3 }

/-- Snapshot produced in the C9 witness run. -/
def snap_initial : BaselineStageSnapshot :=
  { baseline_id := 200
    stage_id := 100
    project_id := 0
    baseline_start_date := some ⟨2024, 1, 5⟩
    baseline_end_date := some ⟨2024, 2, 5⟩
    baseline_duration_days := some 31
    snapshotted_at := 3 }

/-- C9 witness: a concrete initial baseline over one planned stage. -/
theorem C9_baseline_snapshot_on_baseline_witness :
    stage_snapshotted.baseline_start_date = stage_snapshotted.planned_start_date ∧
    stage_snapshotted.baseline_end_date = stage_snapshotted.planned_end_date ∧
    stage_snapshotted.baseline_duration_days = stage_snapshotted.planned_duration_days ∧
    (stage_snapshotted.planned_end_date.isSome = true →
      (compute_deviation stage_snapshotted).deviation_days = some 0 ∧
      (compute_deviation stage_snapshotted).deviation_status =
        some DeviationStatus.on_baseline) :=
  (C9_baseline_snapshot_on_baseline project_zero [stage_planned]
      cr_initial_approved 7 "kickoff" 200 3 [] none).1
    baseline_initial [snap_initial] [stage_snapshotted]
    { project_zero with active_baseline_id := some 200 }
    rfl stage_snapshotted (by decide)

/-- Invariant of the accumulated baseline list: version numbers are
exactly 1..length in order, every baseline but the last is inactive,
and the last is active. -/
def baseline_chain_ok (bs : List Baseline) : Prop :=
  bs ≠ [] ∧
  bs.map (fun b => b.version_number) = List.range' 1 bs.length ∧
  (∀ b ∈ bs.dropLast, b.is_active = false) ∧
  (∀ b, bs.getLast? = some b → b.is_active = true)

theorem foldl_max_range_one : ∀ n : Nat, (List.range' 1 n).foldl max 0 = n := by
  intro n
  induction n with
  | zero => rfl
  | succ k ih =>
    have hc : List.range' 1 (k + 1) = List.range' 1 k ++ [1 + 1 * k] :=
      List.range'_concat 1 k
    rw [hc, List.foldl_append, ih]
    show max k (1 + 1 * k) = k + 1
    omega

theorem foldl_max_version (bs : List Baseline)
    (h : bs.map (fun b => b.version_number) = List.range' 1 bs.length) :
    bs.foldl (fun m b => max m b.version_number) 0 = bs.length := by
  have h1 : (bs.map fun b => b.version_number).foldl max 0 =
      bs.foldl (fun m b => max m b.version_number) 0 := List.foldl_map _ _ _ _
  rw [← h1, h, foldl_max_range_one]

theorem deactivated_version (b : Baseline) :
    (if b.is_active then { b with is_active := false } else b).version_number =
      b.version_number := by
  split <;> rfl

theorem deactivated_inactive (b : Baseline) :
    (if b.is_active then { b with is_active := false } else b).is_active =
      false := by
  by_cases h : b.is_active
  · rw [if_pos h]
  · rw [if_neg h]
    simpa using h

theorem reset_baseline_chain (project : Project) (stages : List Stage)
    (bs : List Baseline) (cr : ChangeRequest) (set_by : UUID) (notes : String)
    (pss : Option (List ProjectStakeholder)) (new_id now : Nat)
    (hinv : baseline_chain_ok bs)
    (nb : Baseline) (snaps : List BaselineStageSnapshot) (stgs2 : List Stage)
    (prev2 : List Baseline) (proj2 : Project)
    (h : reset_baseline project stages bs cr set_by notes pss new_id now =
      Except.ok (nb, snaps, stgs2, prev2, proj2)) :
    baseline_chain_ok (prev2 ++ [nb]) ∧
      (prev2 ++ [nb]).length = bs.length + 1 := by
  obtain ⟨hne, hver, hinact, hlast⟩ := hinv
  unfold reset_baseline at h
  split_ifs at h
  rcases hsc : scope_change_check cr pss with e | u
  all_goals rw [hsc] at h
  · exact Except.noConfusion h
  injection h with hp5
  injection hp5 with h1 h2345
  injection h2345 with h2 h345
  injection h345 with h3 h45
  injection h45 with h4 h5
  subst h1
  subst h4
  have hfold := foldl_max_version bs hver
  have hmapver : ((bs.map fun b =>
      if b.is_active then { b with is_active := false } else b).map
        fun b => b.version_number) = bs.map fun b => b.version_number := by
    rw [List.map_map]
    exact List.map_congr_left (fun b _ => deactivated_version b)
  constructor
  · refine ⟨by simp, ?_, ?_, ?_⟩
    · rw [List.map_append, hmapver, hver]
      show List.range' 1 bs.length ++
          [bs.foldl (fun m b => max m b.version_number) 0 + 1] = _
      rw [hfold]
      have hc : List.range' 1 (bs.length + 1) =
          List.range' 1 bs.length ++ [bs.length + 1] := by
        have h0 : List.range' 1 (bs.length + 1) =
            List.range' 1 bs.length ++ [1 + 1 * bs.length] :=
          List.range'_concat 1 bs.length
        rw [h0]
        congr 2
        omega
      rw [List.length_append, List.length_map]
      simp only [List.length_cons, List.length_nil, Nat.zero_add]
      rw [hc]
    · rw [List.dropLast_concat]
      intro b hb
      obtain ⟨a, _ha, rfl⟩ := List.mem_map.mp hb
      exact deactivated_inactive a
    · intro b hb
      rw [List.getLast?_concat] at hb
      have := Option.some.inj hb
      rw [← this]
  · rw [List.length_append, List.length_map]
    rfl

theorem iterate_resets_chain (set_by : UUID) (notes : String) :
    ∀ (resets : List (ChangeRequest × Option (List ProjectStakeholder) × Nat × Nat))
      (project : Project) (stages : List Stage) (bs : List Baseline),
      baseline_chain_ok bs →
      ∀ projF stagesF bsF,
        iterate_resets set_by notes project stages bs resets =
          Except.ok (projF, stagesF, bsF) →
        baseline_chain_ok bsF ∧ bsF.length = bs.length + resets.length := by
  intro resets
  induction resets with
  | nil =>
    intro p s bs hinv pF sF bsF h
    unfold iterate_resets at h
    injection h with hp3
    injection hp3 with h1 h23
    injection h23 with h2 h3
    subst h3
    exact ⟨hinv, rfl⟩
  | cons head tail ih =>
    obtain ⟨cr, pss, nid, tnow⟩ := head
    intro p s bs hinv pF sF bsF h
    unfold iterate_resets at h
    rcases hres : reset_baseline p s bs cr set_by notes pss nid tnow with e | out
    · rw [hres] at h
      exact Except.noConfusion h
    obtain ⟨nb, snaps, us, up, p2⟩ := out
    rw [hres] at h
    have step := reset_baseline_chain p s bs cr set_by notes pss nid tnow
      ⟨hinv.1, hinv.2.1, hinv.2.2.1, hinv.2.2.2⟩ nb snaps us up p2 hres
    have tailres := ih p2 us (up ++ [nb]) step.1 pF sF bsF h
    refine ⟨tailres.1, ?_⟩
    rw [tailres.2, step.2]
    simp [List.length_cons]
    omega

/-- C2: when one set_initial_baseline call followed by N reset_baseline
calls (each feeding back the accumulated baseline list) all succeed,
the accumulated list holds exactly N+1 baselines whose version numbers
are exactly 1..N+1 in order, every baseline before the last is
inactive (each reset deactivates all currently active baselines
before creating its successor) and the last created baseline is the
single active one. -/
theorem C2_baseline_lifecycle (project : Project) (stages : List Stage)
    (cr0 : ChangeRequest) (set_by : UUID) (notes : String) (id0 t0 : Nat)
    (resets : List (ChangeRequest × Option (List ProjectStakeholder) × Nat × Nat))
    (projF : Project) (stagesF : List Stage) (bs : List Baseline)
    (h : run_baseline_lifecycle project stages cr0 set_by notes id0 t0 resets =
      Except.ok (projF, stagesF, bs)) :
    bs.length = resets.length + 1 ∧
    bs.map (fun b => b.version_number) = List.range' 1 (resets.length + 1) ∧
    (∀ b ∈ bs.dropLast, b.is_active = false) ∧
    (∀ b, bs.getLast? = some b → b.is_active = true) := by
  unfold run_baseline_lifecycle at h
  rcases hini : set_initial_baseline project stages cr0 set_by notes id0 t0
    with e | out
  · rw [hini] at h
    exact Except.noConfusion h
  obtain ⟨b1, snaps, stages1, project1⟩ := out
  rw [hini] at h
  have hb1 : b1.version_number = 1 ∧ b1.is_active = true := by
    unfold set_initial_baseline at hini
    split_ifs at hini
    injection hini with hp4
    injection hp4 with h1 h234
    subst h1
    exact ⟨rfl, rfl⟩
  have hchain : baseline_chain_ok [b1] := by
    refine ⟨by simp, ?_, ?_, ?_⟩
    · show [b1.version_number] = List.range' 1 1
      rw [hb1.1]
      rfl
    · intro b hb
      simp at hb
    · intro b hb
      have hb' : b1 = b := Option.some.inj hb
      rw [← hb']
      exact hb1.2
  have hall := iterate_resets_chain set_by notes resets project1 stages1 [b1]
    hchain projF stagesF bs h
  obtain ⟨⟨hne, hver, hinact, hlast⟩, hlen⟩ := hall
  have hlen' : bs.length = resets.length + 1 := by
    rw [hlen]
    simp
    omega
  refine ⟨hlen', ?_, hinact, hlast⟩
  rw [hver, hlen']


/-- Sample approved delay change request. -/
def cr_delay_approved : ChangeRequest :=
  { cr_pending_scope with
      id := 53
      change_type := ChangeType.delay
      status := ChangeRequestStatus.approved
      reviewed_at := some 2
      reviewer_comments := "ok" }

/-- Baseline list after the witness lifecycle run: version 1 is
deactivated and version 2 is the active baseline. -/
def c2_baselines : List Baseline :=
  [{ id := 200
     project_id := 1
     version_number := 1
     set_by_id := 7
     set_at := 3
     is_active := false
     notes := "kickoff"
     change_request_id := some 52 },
   { id := 201
     project_id := 1
     version_number := 2
     set_by_id := 7
     set_at := 4
     is_active := true
     notes := "kickoff"
     change_request_id := some 53 }]

/-- C2 witness: a concrete lifecycle of one initial baseline and one
reset. -/
theorem C2_baseline_lifecycle_witness :
    c2_baselines.length = 1 + 1 ∧
    c2_baselines.map (fun b => b.version_number) = List.range' 1 (1 + 1) ∧
    (∀ b ∈ c2_baselines.dropLast, b.is_active = false) ∧
    (∀ b, c2_baselines.getLast? = some b → b.is_active = true) :=
  C2_baseline_lifecycle project_zero [] cr_initial_approved 7 "kickoff" 200 3
    [(cr_delay_approved, none, 201, 4)]
    { project_zero with active_baseline_id := some 201 } [] c2_baselines rfl
